import Mathlib

/-!
Verification of the static-file server scripts `src/docs/serve.py` and
`src/descartes/docs/blog/serve.py` of the `descartes` repository.

The two scripts are identical except for the banner text they print.  A
single shallow embedding therefore covers both.  The script is, line by
line:

    PORT = int(sys.argv[1]) if len(sys.argv) > 1 else 8000
    os.chdir(os.path.dirname(os.path.abspath(__file__)))
    Handler = http.server.SimpleHTTPRequestHandler
    with socketserver.TCPServer(("", PORT), Handler) as httpd:
        print(...banner...)
        try:
            httpd.serve_forever()
        except KeyboardInterrupt:
            print("\n  Server stopped.")

We embed it as a function from an environment (the argument vector after
the script name, the script's directory, the caller's working directory,
an oracle saying which ports are already bound, and the point at which a
signal or serving error arrives, if any) to an outcome: the ordered list
of observable events, the final working directory, and the process
result.
-/

namespace Descartes

/-! ### Python integer parsing (`int(...)` on a string)

CPython's `int` applied to a string strips surrounding whitespace,
accepts one optional sign character, and then a nonempty digit sequence
in which single underscores may appear between two digits.  Anything
else raises `ValueError`. -/

def digitVal (c : Char) : Option Nat :=
  if c.isDigit then some (c.toNat - 48) else none

/-- Consume the remainder of a digit string after the first digit:
`(_? digit)*`, accumulating the value.  An underscore must be followed
by a digit, and a non-digit anywhere fails. -/
def pyDigitsAux : Nat → List Char → Option Nat
  | acc, [] => some acc
  | acc, '_' :: c :: rest =>
      match digitVal c with
      | some d => pyDigitsAux (acc * 10 + d) rest
      | none => none
  | _, ['_'] => none
  | acc, c :: rest =>
      match digitVal c with
      | some d => pyDigitsAux (acc * 10 + d) rest
      | none => none

/-- A nonempty digit string with optional internal underscores; the
first character must be a digit (so a leading underscore fails). -/
def pyDigits : List Char → Option Nat
  | [] => none
  | c :: rest =>
      match digitVal c with
      | some d => pyDigitsAux d rest
      | none => none

/-- Sign handling: at most one leading `+` or `-`. -/
def pyIntCore : List Char → Option Int
  | '+' :: rest => (pyDigits rest).map (fun n => (n : Int))
  | '-' :: rest => (pyDigits rest).map (fun n => -(n : Int))
  | l => (pyDigits l).map (fun n => (n : Int))

/-- Strip leading and trailing whitespace, as `str.strip()` does before
`int` parses the body. -/
def trimChars (l : List Char) : List Char :=
  ((l.dropWhile Char.isWhitespace).reverse.dropWhile Char.isWhitespace).reverse

/-- Python `int(s)` for a string `s`: `some n` on success, `none` when
CPython would raise `ValueError`. -/
def pythonInt (s : String) : Option Int :=
  pyIntCore (trimChars s.toList)

/-! ### The script as a state-free trace function -/

/-- The resolved port: `int(sys.argv[1]) if len(sys.argv) > 1 else 8000`.
The argument list here is `sys.argv[1:]`, i.e. everything after the
script name, so `len(sys.argv) > 1` is "the list is nonempty" and
`sys.argv[1]` is its head. -/
def resolvePort (argv : List String) : Option Int :=
  match argv with
  | [] => some 8000
  | a :: _ => pythonInt a

/-- The startup phases of the script that precede `serve_forever`. -/
inductive Phase
  | parsePhase
  | chdirPhase
  | constructPhase
  | bannerPhase
  deriving DecidableEq, Repr

/-- When, if ever, execution is disrupted.  `quiet` means no signal and
no serving error ever arrives, so `serve_forever` runs indefinitely.
`kiBefore p` is a `KeyboardInterrupt` delivered while startup phase `p`
executes, before its effect lands.  `kiDuringServe` is a
`KeyboardInterrupt` raised inside `serve_forever`, and
`errorDuringServe` is any other exception raised inside
`serve_forever`. -/
inductive Disruption
  | quiet
  | kiBefore (p : Phase)
  | kiDuringServe
  | errorDuringServe
  deriving DecidableEq, Repr

/-- The environment the script runs in. -/
structure Env where
  argv : List String
  scriptDir : String
  callerCwd : String
  portInUse : Int → Bool
  dis : Disruption

/-- Observable events, in program order. -/
inductive Ev
  | chdir (dir : String)
  | bind (host : String) (port : Int)
  | banner
  | shutdownMsg
  | release
  deriving DecidableEq, Repr

/-- The process result.  `serving p` means the process is still inside
`serve_forever`, listening on port `p`, and never exits.  `exitOk` is
exit status 0 (the script falls off the end).  The `fatal*` results are
uncaught exceptions, which CPython turns into a traceback and a nonzero
exit status: `fatalParse` is the `ValueError` from `int`, `fatalBind`
is any error raised while constructing `TCPServer` (address in use, or
port outside 0..65535 rejected by the socket layer), `fatalKI` is an
uncaught `KeyboardInterrupt`, and `fatalServeError` is a non-interrupt
exception escaping `serve_forever`. -/
inductive Res
  | serving (port : Int)
  | exitOk
  | fatalParse
  | fatalBind
  | fatalKI
  | fatalServeError
  deriving DecidableEq, Repr

/-- An outcome: events in order, the final working directory, and the
result. -/
structure Outcome where
  events : List Ev
  cwd : String
  result : Res
  deriving DecidableEq, Repr

/-- The whole script.  Mirrors the source top to bottom: parse the
port, `os.chdir` to the script's directory, construct
`socketserver.TCPServer(("", PORT), Handler)` (the `with` statement
guarantees the socket is released on every way out of its body), print
the banner, then `serve_forever` under `try/except KeyboardInterrupt`. -/
def run (env : Env) : Outcome :=
  if env.dis = .kiBefore .parsePhase then
    ⟨[], env.callerCwd, .fatalKI⟩
  else
    match resolvePort env.argv with
    | none => ⟨[], env.callerCwd, .fatalParse⟩
    | some PORT =>
      if env.dis = .kiBefore .chdirPhase then
        ⟨[], env.callerCwd, .fatalKI⟩
      else
        let evs := [Ev.chdir env.scriptDir]
        if env.dis = .kiBefore .constructPhase then
          ⟨evs, env.scriptDir, .fatalKI⟩
        else if PORT < 0 ∨ 65535 < PORT ∨ env.portInUse PORT = true then
          ⟨evs, env.scriptDir, .fatalBind⟩
        else
          let evs := evs ++ [Ev.bind "" PORT]
          if env.dis = .kiBefore .bannerPhase then
            ⟨evs ++ [Ev.release], env.scriptDir, .fatalKI⟩
          else
            let evs := evs ++ [Ev.banner]
            match env.dis with
            | .kiDuringServe =>
                ⟨evs ++ [Ev.shutdownMsg, Ev.release], env.scriptDir, .exitOk⟩
            | .errorDuringServe =>
                ⟨evs ++ [Ev.release], env.scriptDir, .fatalServeError⟩
            | _ => ⟨evs, env.scriptDir, .serving PORT⟩

/-! ### Request handling

The scripts delegate every request to
`http.server.SimpleHTTPRequestHandler` (`Handler` on line 21), which is
Python standard-library code, not part of this repository. -/

/-- A filesystem node visible to the handler: a regular file with its
byte content, or a directory whose response body (index file or
generated listing) the standard handler produces. -/
inductive FsNode
  | file (content : List Nat)
  | directory (body : List Nat)
  deriving DecidableEq, Repr

/-- An HTTP response: status code and body bytes. -/
structure Response where
  status : Nat
  body : List Nat
  deriving DecidableEq, Repr

/-- Modelled from the spec: `http.server.SimpleHTTPRequestHandler`, the
standard-library file-serving handler the scripts install, whose code
is not under this repository's sources.  Per the spec it "resolves the
requested path against the base directory, serves the file's bytes
... if found, serves a generated directory listing if the path is a
directory ... and returns a not-found response otherwise"; it is a
total function per request, so a request never crashes the process. -/
def handleRequest (fs : String → Option FsNode) (path : String) : Response :=
  match fs path with
  | some (.file b) => ⟨200, b⟩
  | some (.directory b) => ⟨200, b⟩
  | none => ⟨404, []⟩

/-! ### Claims -/

/-- C1: for every valid TCP port supplied as the sole command-line
argument (parsing as `p` with `1 ≤ p ≤ 65535`) that is not already
bound, the server creates its listening socket bound to all interfaces
(host `""`) on exactly `p`, the integer parse of `argv[1]`, and serves
on it. -/
theorem c1_port_arg_binds_exact_port (a : String) (p : Int) (d cw : String)
    (inUse : Int → Bool) (hp : pythonInt a = some p)
    (h1 : 1 ≤ p) (h2 : p ≤ 65535) (hfree : inUse p = false) :
    (run ⟨[a], d, cw, inUse, .quiet⟩).result = .serving p ∧
    Ev.bind "" p ∈ (run ⟨[a], d, cw, inUse, .quiet⟩).events := by
  have hn0 : ¬ p < 0 := by omega
  have hn1 : ¬ 65535 < p := by omega
  simp [run, resolvePort, hp, hfree, hn0, hn1]

/-- C1 witness: launching with sole argument `"3000"` on a machine
where no port is bound serves on port 3000. -/
theorem c1_witness :
    (run ⟨["3000"], "/repo/docs", "/tmp", fun _ => false, .quiet⟩).result
      = .serving 3000 ∧
    Ev.bind "" 3000
      ∈ (run ⟨["3000"], "/repo/docs", "/tmp", fun _ => false, .quiet⟩).events :=
  c1_port_arg_binds_exact_port "3000" 3000 "/repo/docs" "/tmp" (fun _ => false)
    (by rfl) (by decide) (by decide) (by rfl)

/-- C2: launched with zero command-line arguments, the resolved port is
8000 and the server listens on port 8000 (socket bound to host `""`,
port 8000). -/
theorem c2_default_port_8000 (d cw : String) (inUse : Int → Bool)
    (hfree : inUse 8000 = false) :
    resolvePort [] = some 8000 ∧
    (run ⟨[], d, cw, inUse, .quiet⟩).result = .serving 8000 ∧
    Ev.bind "" 8000 ∈ (run ⟨[], d, cw, inUse, .quiet⟩).events := by
  refine ⟨rfl, ?_⟩
  simp [run, resolvePort, hfree]

/-- C2 witness: concrete launch with no arguments and port 8000 free. -/
theorem c2_witness :
    resolvePort [] = some 8000 ∧
    (run ⟨[], "/repo/docs", "/tmp", fun _ => false, .quiet⟩).result
      = .serving 8000 ∧
    Ev.bind "" 8000
      ∈ (run ⟨[], "/repo/docs", "/tmp", fun _ => false, .quiet⟩).events :=
  c2_default_port_8000 "/repo/docs" "/tmp" (fun _ => false) (by rfl)

/-- C3: launched with a first argument that does not parse as a Python
integer, the process fails with the unhandled parse error and the event
trace is empty: no chdir, no socket bound, server construction never
reached. -/
theorem c3_bad_port_fatal_before_bind (a : String) (rest : List String)
    (d cw : String) (inUse : Int → Bool) (hbad : pythonInt a = none) :
    (run ⟨a :: rest, d, cw, inUse, .quiet⟩).result = .fatalParse ∧
    (run ⟨a :: rest, d, cw, inUse, .quiet⟩).events = [] := by
  simp [run, resolvePort, hbad]

/-- C3 witness: the argument `"abc"` fails to parse and no listening
socket is created. -/
theorem c3_witness :
    (run ⟨["abc"], "/repo/docs", "/tmp", fun _ => false, .quiet⟩).result
      = .fatalParse ∧
    (run ⟨["abc"], "/repo/docs", "/tmp", fun _ => false, .quiet⟩).events = [] :=
  c3_bad_port_fatal_before_bind "abc" [] "/repo/docs" "/tmp" (fun _ => false)
    (by rfl)

/-- C4: whenever port parsing succeeds (and no interrupt lands before
the directory change), the working directory becomes the script's
directory — independent of the caller's working directory — and the
chdir is the first event of the trace, hence before the server is
created. -/
theorem c4_chdir_to_script_dir (argv : List String) (p : Int) (d cw : String)
    (inUse : Int → Bool) (dis : Disruption)
    (hp : resolvePort argv = some p)
    (h1 : dis ≠ .kiBefore .parsePhase) (h2 : dis ≠ .kiBefore .chdirPhase) :
    (run ⟨argv, d, cw, inUse, dis⟩).cwd = d ∧
    ∃ rest, (run ⟨argv, d, cw, inUse, dis⟩).events = Ev.chdir d :: rest := by
  by_cases hc : dis = .kiBefore .constructPhase
  · simp [run, hp, h1, h2, hc]
  · by_cases hb : (p < 0 ∨ 65535 < p ∨ inUse p = true)
    · simp [run, hp, h1, h2, hc, hb]
    · by_cases hban : dis = .kiBefore .bannerPhase
      · simp [run, hp, h1, h2, hc, hb, hban]
      · cases dis with
        | quiet => simp [run, hp, hb]
        | kiBefore ph => cases ph <;> simp_all [run, hp, hb]
        | kiDuringServe => simp [run, hp, hb]
        | errorDuringServe => simp [run, hp, hb]

/-- C4 witness: caller working directory `/somewhere/else`, script
directory `/repo/docs`; after startup the working directory is the
script directory and chdir is the first event. -/
theorem c4_witness :
    (run ⟨[], "/repo/docs", "/somewhere/else", fun _ => false, .quiet⟩).cwd
      = "/repo/docs" ∧
    ∃ rest,
      (run ⟨[], "/repo/docs", "/somewhere/else", fun _ => false, .quiet⟩).events
        = Ev.chdir "/repo/docs" :: rest :=
  c4_chdir_to_script_dir [] 8000 "/repo/docs" "/somewhere/else"
    (fun _ => false) .quiet (by rfl) (by decide) (by decide)

/-- C5: a `KeyboardInterrupt` raised while `serve_forever` runs is
caught; the full trace shows the shutdown message printed and the
socket released, and the process exits with status 0. -/
theorem c5_interrupt_clean_shutdown (argv : List String) (p : Int)
    (d cw : String) (inUse : Int → Bool)
    (hp : resolvePort argv = some p) (h0 : 0 ≤ p) (h1 : p ≤ 65535)
    (hfree : inUse p = false) :
    run ⟨argv, d, cw, inUse, .kiDuringServe⟩ =
      ⟨[Ev.chdir d, Ev.bind "" p, Ev.banner, Ev.shutdownMsg, Ev.release],
        d, .exitOk⟩ := by
  have hn0 : ¬ p < 0 := by omega
  have hn1 : ¬ 65535 < p := by omega
  simp [run, hp, hfree, hn0, hn1]

/-- C5 witness: interrupting a default-port server yields the clean
shutdown trace and exit status 0. -/
theorem c5_witness :
    run ⟨[], "/repo/docs", "/tmp", fun _ => false, .kiDuringServe⟩ =
      ⟨[Ev.chdir "/repo/docs", Ev.bind "" 8000, Ev.banner, Ev.shutdownMsg,
          Ev.release], "/repo/docs", .exitOk⟩ :=
  c5_interrupt_clean_shutdown [] 8000 "/repo/docs" "/tmp" (fun _ => false)
    (by rfl) (by decide) (by decide) (by rfl)

/-- C6: if the resolved port is already bound, server construction
fails uncaught (nonzero exit) and the trace contains no bind event at
all: no retry and no fallback port is attempted. -/
theorem c6_port_in_use_fatal (argv : List String) (p : Int) (d cw : String)
    (inUse : Int → Bool) (hp : resolvePort argv = some p)
    (hin : inUse p = true) :
    (run ⟨argv, d, cw, inUse, .quiet⟩).result = .fatalBind ∧
    ∀ h q, Ev.bind h q ∉ (run ⟨argv, d, cw, inUse, .quiet⟩).events := by
  simp [run, hp, hin]

/-- C6 witness: port 8000 already bound; construction fails and no bind
event occurs. -/
theorem c6_witness :
    (run ⟨[], "/repo/docs", "/tmp", fun _ => true, .quiet⟩).result
      = .fatalBind ∧
    ∀ h q, Ev.bind h q
      ∉ (run ⟨[], "/repo/docs", "/tmp", fun _ => true, .quiet⟩).events :=
  c6_port_in_use_fatal [] 8000 "/repo/docs" "/tmp" (fun _ => true)
    (by rfl) (by rfl)

/-- C7: on every exit path of the process after the socket is bound —
interrupt-triggered shutdown, a `KeyboardInterrupt` escaping outside
the try block, or any other uncaught exception during serving — the
listening socket is released: whenever a bind event is in the trace and
the process is not still serving, a release event is too.  The `with`
statement is what guarantees this. -/
theorem c7_socket_released_on_exit (env : Env) (h : String) (p : Int)
    (hb : Ev.bind h p ∈ (run env).events)
    (hexit : ∀ q, (run env).result ≠ .serving q) :
    Ev.release ∈ (run env).events := by
  obtain ⟨argv, d, cw, inUse, dis⟩ := env
  rcases hres : resolvePort argv with _ | q
  · cases dis with
    | kiBefore ph => cases ph <;> simp_all [run]
    | _ => simp_all [run]
  · by_cases hcond : ((q : Int) < 0 ∨ 65535 < q ∨ inUse q = true)
    · cases dis with
      | kiBefore ph => cases ph <;> simp_all [run]
      | _ => simp_all [run]
    · simp only [run, hres] at hb hexit ⊢
      split_ifs at hb hexit ⊢
      all_goals try simp_all
      all_goals
        cases dis with
        | quiet => exact absurd rfl (hexit q)
        | kiBefore ph => cases ph <;> simp_all
        | kiDuringServe => simp_all
        | errorDuringServe => simp_all

/-- C7 witness: an interrupt-triggered shutdown of a default-port
server releases the socket. -/
theorem c7_witness :
    Ev.release
      ∈ (run ⟨[], "/repo/docs", "/tmp", fun _ => false, .kiDuringServe⟩).events :=
  c7_socket_released_on_exit
    ⟨[], "/repo/docs", "/tmp", fun _ => false, .kiDuringServe⟩ "" 8000
    (by decide)
    (by
      intro q hq
      rw [show (run ⟨[], "/repo/docs", "/tmp", fun _ => false,
            .kiDuringServe⟩).result = Res.exitOk from rfl] at hq
      exact Res.noConfusion hq)

/-- C8: every request whose path resolves to an existing file is
answered with status 200 and that file's exact byte content; every path
resolving to nothing is answered with status 404; and the handler is a
total function of the filesystem and path, so a request never crashes
the process.  (Delegated to the standard-library handler; see
`handleRequest`, modelled from the spec.) -/
theorem c8_file_serving (fs : String → Option FsNode) (path : String) :
    (∀ b, fs path = some (.file b) → handleRequest fs path = ⟨200, b⟩) ∧
    (fs path = none → (handleRequest fs path).status = 404) := by
  constructor
  · intro b hb
    simp [handleRequest, hb]
  · intro hn
    simp [handleRequest, hn]

/-- C8 witness: a one-file filesystem serves the file's exact bytes
with status 200 and answers 404 for a missing path. -/
theorem c8_witness :
    handleRequest
        (fun q => if q = "/index.html" then some (.file [60, 104, 62]) else none)
        "/index.html" = ⟨200, [60, 104, 62]⟩ ∧
    (handleRequest
        (fun q => if q = "/index.html" then some (.file [60, 104, 62]) else none)
        "/missing.xyz").status = 404 :=
  ⟨(c8_file_serving
      (fun q => if q = "/index.html" then some (.file [60, 104, 62]) else none)
      "/index.html").1 [60, 104, 62] (by rfl),
   (c8_file_serving
      (fun q => if q = "/index.html" then some (.file [60, 104, 62]) else none)
      "/missing.xyz").2 (by rfl)⟩

/-- C9: port parsing performs no TCP-range validation.  Negative
values, zero, values above 65535, `"+8000"` and `"8_000"` all parse,
and for any argument that parses, the run never ends in a parse error;
when the parsed value is outside 0..65535 the failure surfaces only at
server construction (after the directory change), as `fatalBind`, not
as a parse error. -/
theorem c9_no_range_check_at_parse :
    pythonInt "+8000" = some 8000 ∧
    pythonInt "8_000" = some 8000 ∧
    pythonInt "-1" = some (-1) ∧
    pythonInt "0" = some 0 ∧
    pythonInt "70000" = some 70000 ∧
    (∀ a p d cw inUse, pythonInt a = some p →
      (run ⟨[a], d, cw, inUse, .quiet⟩).result ≠ .fatalParse) ∧
    (∀ a p d cw inUse, pythonInt a = some p → (p < 0 ∨ 65535 < p) →
      (run ⟨[a], d, cw, inUse, .quiet⟩).result = .fatalBind ∧
      Ev.chdir d ∈ (run ⟨[a], d, cw, inUse, .quiet⟩).events) := by
  refine ⟨by rfl, by rfl, by rfl, by rfl, by rfl, ?_, ?_⟩
  · intro a p d cw inUse hp
    simp only [run, resolvePort, hp]
    split <;> simp_all
    split <;> simp_all
  · intro a p d cw inUse hp hout
    have hcond : p < 0 ∨ 65535 < p ∨ inUse p = true := by
      rcases hout with h | h
      · exact Or.inl h
      · exact Or.inr (Or.inl h)
    simp [run, resolvePort, hp, hcond]

/-- C9 witness: the argument `"-1"` parses to -1, the run does not end
in a parse error, and the failure is the construction error, after the
directory change. -/
theorem c9_witness :
    ((run ⟨["-1"], "/repo/docs", "/tmp", fun _ => false, .quiet⟩).result
        ≠ .fatalParse) ∧
    (run ⟨["-1"], "/repo/docs", "/tmp", fun _ => false, .quiet⟩).result
        = .fatalBind ∧
    Ev.chdir "/repo/docs"
      ∈ (run ⟨["-1"], "/repo/docs", "/tmp", fun _ => false, .quiet⟩).events :=
  ⟨c9_no_range_check_at_parse.2.2.2.2.2.1 "-1" (-1) "/repo/docs" "/tmp"
      (fun _ => false) (by rfl),
   c9_no_range_check_at_parse.2.2.2.2.2.2 "-1" (-1) "/repo/docs" "/tmp"
      (fun _ => false) (by rfl) (by decide)⟩

/-- C10: a `KeyboardInterrupt` delivered during any startup phase
before `serve_forever` — port parsing, directory change, server
construction, or banner printing — is not caught: the process ends with
the uncaught interrupt (nonzero exit) and no shutdown message is ever
printed, even in an environment where startup would otherwise succeed. -/
theorem c10_early_interrupt_uncaught (argv : List String) (ph : Phase)
    (p : Int) (d cw : String) (inUse : Int → Bool)
    (hp : resolvePort argv = some p) (h0 : 0 ≤ p) (h1 : p ≤ 65535)
    (hfree : inUse p = false) :
    (run ⟨argv, d, cw, inUse, .kiBefore ph⟩).result = .fatalKI ∧
    Ev.shutdownMsg ∉ (run ⟨argv, d, cw, inUse, .kiBefore ph⟩).events := by
  have hn0 : ¬ p < 0 := by omega
  have hn1 : ¬ 65535 < p := by omega
  cases ph <;> simp [run, hp, hfree, hn0, hn1]

/-- C10 witness: an interrupt during banner printing of a default-port
server is uncaught and no shutdown message is printed. -/
theorem c10_witness :
    (run ⟨[], "/repo/docs", "/tmp", fun _ => false,
        .kiBefore .bannerPhase⟩).result = .fatalKI ∧
    Ev.shutdownMsg
      ∉ (run ⟨[], "/repo/docs", "/tmp", fun _ => false,
          .kiBefore .bannerPhase⟩).events :=
  c10_early_interrupt_uncaught [] .bannerPhase 8000 "/repo/docs" "/tmp"
    (fun _ => false) (by rfl) (by decide) (by decide) (by rfl)

end Descartes
